import Mathlib

/-!
PhoneBook: the `rdbms` query executor

A shallow embedding of `pkg/rdbms/rdbms.go` (`QueryRow`, `Query`, `Execute`)
over an explicit model of the `database/sql` collaborator.

* The database's answers during one call are given by a *script*
  (what `Prepare`, `Scan`, `Query`, `Next`, `Err`, `Exec`, `RowsAffected`
  return); the executor code is translated statement by statement.
* `Driver` is the resource-tracking state: one entry per handle ever
  created, holding the number of `Close` calls it received, plus the log of
  driver operations performed.
* A Go `defer h.Close()` is translated as "run the rest of the body, then
  close `h`", whatever the rest produced (a return value or a panic).
* Error texts are Lean strings; `strings.Contains` is containment of the
  character sequence.
-/

namespace PhoneBook

/-! ## Values, errors, outcomes -/

/-- Content of one output slot (a destination passed as `any`). -/
inductive Value where
  | null
  | int (i : Int)
  | str (s : String)
  deriving DecidableEq, Repr

/-- An error value handed back by `database/sql`.  `errNoRows` is the sentinel
`sql.ErrNoRows` (compared by identity in the source); every other error value is
`other` with its `Error()` text. -/
inductive DriverError where
  | errNoRows
  | other (msg : String)
  deriving DecidableEq, Repr

/-- The `Error()` method. -/
def DriverError.Error : DriverError → String
  | .errNoRows => "sql: no rows in result set"
  | .other msg => msg

/-- What a call of the executor hands back to its caller: `nil`, a non-nil error
with the given message, or a run-time panic that unwinds through the call. -/
inductive Outcome where
  | nil
  | error (msg : String)
  | panic (reason : String)
  deriving DecidableEq, Repr

/-- Substring test on character lists. -/
def containsChars : List Char → List Char → Bool
  | [], sub => sub.isEmpty
  | c :: cs, sub => sub.isPrefixOf (c :: cs) || containsChars cs sub

/-- The function `strings.Contains`. -/
def stringsContains (s substr : String) : Bool :=
  containsChars s.data substr.data

/-- The formatting `fmt.Errorf("%s\n%v", s, err)`, as the resulting message. -/
def Errorf (s : String) (err : DriverError) : String :=
  s ++ "\n" ++ err.Error

def ErrPrepareStatement : String := "Error when tying to prepare statement"
def ErrNotFound : String := "Error no entry found with given arguments"
def ErrDuplicate : String := "Error operation canceled due to the duplication entry"

/-! ## The resource-tracking driver -/

/-- Operations the executor performs on the driver, in order. -/
inductive Op where
  | prepare (query : String)
  | stmtClose (stmt : Nat)
  | stmtQueryRow (stmt : Nat) (args : List Value)
  | rowScan
  | stmtQuery (stmt : Nat) (args : List Value)
  | rowsNext (cursor : Nat)
  | rowsScan (cursor : Nat) (index : Nat)
  | rowsErr (cursor : Nat)
  | rowsClose (cursor : Nat)
  | stmtExec (stmt : Nat) (args : List Value)
  | rowsAffected
  deriving DecidableEq, Repr

/-- Driver state.  `stmts[h]` is the number of `Close` calls statement handle `h`
has received so far (a handle is open while that number is `0`); likewise
`cursors`.  `ops` is the log of operations, oldest first. -/
structure Driver where
  stmts : List Nat
  cursors : List Nat
  ops : List Op
  deriving DecidableEq, Repr

def Driver.record (d : Driver) (op : Op) : Driver :=
  { d with ops := d.ops ++ [op] }

/-- A successful `Prepare`: a fresh open statement handle.  (A failed `Prepare`
is only recorded in the log.) -/
def Driver.newStmt (d : Driver) (query : String) : Nat × Driver :=
  (d.stmts.length, { d with stmts := d.stmts ++ [0], ops := d.ops ++ [Op.prepare query] })

/-- A successful `stmt.Query`: a fresh open cursor handle. -/
def Driver.newCursor (d : Driver) (stmt : Nat) (args : List Value) : Nat × Driver :=
  (d.cursors.length,
    { d with cursors := d.cursors ++ [0], ops := d.ops ++ [Op.stmtQuery stmt args] })

/-- The call `stmt.Close()`. -/
def Driver.closeStmt (d : Driver) (h : Nat) : Driver :=
  { d with stmts := d.stmts.set h (d.stmts.getD h 0 + 1), ops := d.ops ++ [Op.stmtClose h] }

/-- The call `rows.Close()`. -/
def Driver.closeCursor (d : Driver) (h : Nat) : Driver :=
  { d with cursors := d.cursors.set h (d.cursors.getD h 0 + 1),
           ops := d.ops ++ [Op.rowsClose h] }

/-- Number of handles still open in a handle table. -/
def openHandles (table : List Nat) : Nat :=
  table.count 0

/-! ## Scripts: what the database answers during one call -/

/-- One row as delivered to `Scan`: the column values `Scan` stores, in order,
and the error it returns (`none` for `nil`).  With an error, `vals` are the
columns stored before the failing one. -/
structure Row where
  vals : List Value
  err : Option DriverError
  deriving DecidableEq, Repr

/-- Effect of `Scan(dest...)` on the destinations: column `i` is stored in
destination `i`; destinations without a column keep their value. -/
def scanInto : List Value → List Value → List Value
  | [], _ => []
  | d :: ds, [] => d :: ds
  | _ :: ds, v :: vs => v :: scanInto ds vs

structure QueryRowScript where
  prepare : Option DriverError
  row : Row
  deriving DecidableEq, Repr

/-- The rows for which `rows.Next()` is true, then the value of `rows.Err()`. -/
structure QueryScript where
  prepare : Option DriverError
  query : Option DriverError
  rows : List Row
  rowsErr : Option DriverError
  deriving DecidableEq, Repr

structure ExecuteScript where
  prepare : Option DriverError
  exec : Option DriverError
  rowsAffected : Int
  rowsAffectedErr : Option DriverError
  deriving DecidableEq, Repr

/-- A Go slice of slot groups: its elements (`len` is their number) and its
capacity. -/
structure Slice where
  elems : List (List Value)
  cap : Nat
  deriving DecidableEq, Repr

/-- The slice built by `make([][]any, n)` and then filled: capacity equals length. -/
def Slice.ofList (groups : List (List Value)) : Slice :=
  { elems := groups, cap := groups.length }

/-! ## The executor -/

/-- The method `QueryRow`: returns the outcome, the caller's slots after the call,
and the driver state. -/
def QueryRow (d : Driver) (s : QueryRowScript) (query : String) (args : List Value)
    (out : List Value) : Outcome × List Value × Driver :=
  match s.prepare with
  | some err => (.error (Errorf ErrPrepareStatement err), out, d.record (.prepare query))
  | none =>
    let (stmt, d1) := d.newStmt query
    -- defer stmt.Close()
    let d2 := (d1.record (.stmtQueryRow stmt args)).record .rowScan
    let out1 := scanInto out s.row.vals
    let res : Outcome :=
      match s.row.err with
      | some err =>
        if stringsContains err.Error "Duplicate entry" then .error ErrDuplicate
        else if err = DriverError.errNoRows then .error ErrNotFound
        else .error (Errorf "Error while executing the query or scanning the row" err)
      | none => .nil
    (res, out1, d2.closeStmt stmt)

/-- Result of the scan loop of `Query`: either the loop ended (`rows.Next()`
false) with the final `index`, or the body returned an error, or it panicked. -/
inductive LoopExit where
  | done (index : Nat)
  | scanError (index : Nat) (err : DriverError)
  | indexOutOfRange (index : Nat)
  deriving DecidableEq, Repr

/-- The loop `for ; rows.Next(); index++ { rows.Scan(out[index]...) }`. -/
def scanLoop (cursor : Nat) :
    List Row → Nat → List (List Value) → Driver → LoopExit × List (List Value) × Driver
  | [], index, out, d => (.done index, out, d.record (.rowsNext cursor))
  | r :: rest, index, out, d =>
    let d1 := d.record (.rowsNext cursor)
    if h : index < out.length then
      let d2 := d1.record (.rowsScan cursor index)
      let out1 := out.set index (scanInto (out.get ⟨index, h⟩) r.vals)
      match r.err with
      | some err => (.scanError index err, out1, d2)
      | none => scanLoop cursor rest (index + 1) out1 d2
    else (.indexOutOfRange index, out, d1)

/-- The method `Query`. -/
def Query (d : Driver) (s : QueryScript) (query : String) (args : List Value)
    (out : Slice) : Outcome × List (List Value) × Driver :=
  match s.prepare with
  | some err => (.error (Errorf ErrPrepareStatement err), out.elems, d.record (.prepare query))
  | none =>
    let (stmt, d1) := d.newStmt query
    -- defer stmt.Close()
    match s.query with
    | some err =>
      (.error (Errorf "Error executing the query" err), out.elems,
        (d1.record (.stmtQuery stmt args)).closeStmt stmt)
    | none =>
      let (cursor, d2) := d1.newCursor stmt args
      -- defer rows.Close()
      let (exit, out1, d3) := scanLoop cursor s.rows 0 out.elems d2
      let (res, d4) : Outcome × Driver :=
        match exit with
        | .scanError _ err => (.error (Errorf "Error while scanning the row" err), d3)
        | .indexOutOfRange _ => (.panic "index out of range", d3)
        | .done index =>
          -- out = out[:index+1]
          if index + 1 ≤ out.cap then
            let d5 := d3.record (.rowsErr cursor)
            match s.rowsErr with
            | some err => (.error (Errorf "There's an error in result of the query" err), d5)
            | none => (.nil, d5)
          else (.panic "slice bounds out of range", d3)
      (res, out1, (d4.closeCursor cursor).closeStmt stmt)

/-- The method `Execute`. -/
def Execute (d : Driver) (s : ExecuteScript) (query : String) (args : List Value) :
    Outcome × Driver :=
  match s.prepare with
  | some err => (.error (Errorf ErrPrepareStatement err), d.record (.prepare query))
  | none =>
    let (stmt, d1) := d.newStmt query
    -- defer stmt.Close()
    let d2 := d1.record (.stmtExec stmt args)
    let (res, d3) : Outcome × Driver :=
      match s.exec with
      | some err =>
        if stringsContains err.Error "Duplicate entry" then (.error ErrDuplicate, d2)
        else (.error (Errorf "error when tying to excute statement" err), d2)
      | none =>
        let d4 := d2.record .rowsAffected
        match s.rowsAffectedErr with
        | some err => (.error (Errorf "error getting number of rows affected" err), d4)
        | none =>
          if s.rowsAffected = 0 then (.error ErrNotFound, d4)
          else (.nil, d4)
    (res, d3.closeStmt stmt)

/-- The handlers' test `err != nil && err.Error() == rdbms.ErrNotFound`
(`getContact`, `updateContact`, `deleteContact`; negated in `register`). -/
def errIsNotFound : Outcome → Bool
  | .error msg => msg == ErrNotFound
  | _ => false

def emptyDriver : Driver := { stmts := [], cursors := [], ops := [] }

/-! ## Reference notions used to state what a call of `Query` did -/

/-- The rows on which `Scan` is called when no fault intervenes: the delivered
rows up to and including the first one whose scan returns an error. -/
def upToFirstError : List Row → List Row
  | [] => []
  | r :: rs =>
    match r.err with
    | some _ => [r]
    | none => r :: upToFirstError rs

/-- The error of the first row whose scan fails, if any. -/
def firstScanError : List Row → Option DriverError
  | [] => none
  | r :: rs =>
    match r.err with
    | some e => some e
    | none => firstScanError rs

/-- The slot groups after scanning the given rows into them, row `i` into group
`i`, for as many rows as there are groups. -/
def afterScans : List Row → List (List Value) → List (List Value)
  | [], out => out
  | _ :: _, [] => []
  | r :: rs, g :: gs => scanInto g r.vals :: afterScans rs gs

/-! ## Facts about the error texts -/

/-- A text starting with the first `n` characters of `p` differs from every text
`t` that starts otherwise. -/
theorem append_ne_of_take (p r t : String) (n : Nat) (hn : n ≤ p.data.length)
    (h : p.data.take n ≠ t.data.take n) : p ++ r ≠ t := by
  intro heq
  apply h
  have h2 : (p ++ r).data.take n = t.data.take n := by rw [heq]
  rw [String.data_append, List.take_append_of_le_length hn] at h2
  exact h2

/-- The message built by `Errorf` with a fixed text `p` differs from every text
that does not start like `p`. -/
theorem Errorf_ne_of_take (p t : String) (err : DriverError) (n : Nat)
    (hn : n ≤ p.data.length) (h : p.data.take n ≠ t.data.take n) : Errorf p err ≠ t := by
  unfold Errorf
  apply append_ne_of_take (p ++ "\n") err.Error t n
  · rw [String.data_append, List.length_append]; omega
  · rw [String.data_append, List.take_append_of_le_length hn]; exact h

theorem isPrefixOf_self (l : List Char) : l.isPrefixOf l = true := by
  induction l with
  | nil => rfl
  | cons c cs ih => simp [List.isPrefixOf, ih]

theorem containsChars_self (l : List Char) : containsChars l l = true := by
  cases l with
  | nil => rfl
  | cons c cs => simp [containsChars, isPrefixOf_self]

theorem containsChars_append (a b : List Char) : containsChars (a ++ b) b = true := by
  induction a with
  | nil => exact containsChars_self b
  | cons c cs ih => simp [containsChars, ih]

/-- The message built by `Errorf` contains the message of the error it formats. -/
theorem Errorf_contains (p : String) (err : DriverError) :
    stringsContains (Errorf p err) err.Error = true := by
  unfold stringsContains Errorf
  rw [String.data_append]
  exact containsChars_append _ _

/-! ## Zero rows, zero affected rows, duplicates -/

/-- Claim C3: when prepare succeeds and the single-row scan returns `sql.ErrNoRows`,
`QueryRow` returns an error whose message is exactly `ErrNotFound`, which is not
the generic "Error while executing the query or scanning the row" failure. -/
theorem QueryRow_noRows_is_notFound (d : Driver) (s : QueryRowScript) (query : String)
    (args : List Value) (out : List Value)
    (hprep : s.prepare = none) (hscan : s.row.err = some DriverError.errNoRows) :
    (QueryRow d s query args out).1 = Outcome.error ErrNotFound ∧
    (QueryRow d s query args out).1 ≠
      Outcome.error (Errorf "Error while executing the query or scanning the row"
        DriverError.errNoRows) := by
  have h : (QueryRow d s query args out).1 = Outcome.error ErrNotFound := by
    simp only [QueryRow, hprep, hscan, Driver.newStmt]
    rw [if_neg (by decide), if_pos trivial]
  refine ⟨h, ?_⟩
  rw [h]
  decide

theorem QueryRow_noRows_is_notFound_witness :
    (QueryRow emptyDriver ⟨none, ⟨[], some DriverError.errNoRows⟩⟩ "SELECT" [Value.int 42]
        [Value.null]).1 = Outcome.error ErrNotFound ∧
    (QueryRow emptyDriver ⟨none, ⟨[], some DriverError.errNoRows⟩⟩ "SELECT" [Value.int 42]
        [Value.null]).1 ≠
      Outcome.error (Errorf "Error while executing the query or scanning the row"
        DriverError.errNoRows) :=
  QueryRow_noRows_is_notFound emptyDriver ⟨none, ⟨[], some DriverError.errNoRows⟩⟩ "SELECT"
    [Value.int 42] [Value.null] rfl rfl

/-- Claim C4: when prepare and exec succeed and the driver reports an affected-row
count of 0 without error, `Execute` returns an error whose message is exactly
`ErrNotFound`, for which the handlers' comparison with `rdbms.ErrNotFound` holds. -/
theorem Execute_zero_affected_is_notFound (d : Driver) (s : ExecuteScript) (query : String)
    (args : List Value)
    (hprep : s.prepare = none) (hexec : s.exec = none)
    (herr : s.rowsAffectedErr = none) (hzero : s.rowsAffected = 0) :
    (Execute d s query args).1 = Outcome.error ErrNotFound ∧
    errIsNotFound (Execute d s query args).1 = true := by
  have h : (Execute d s query args).1 = Outcome.error ErrNotFound := by
    simp [Execute, hprep, hexec, herr, hzero, Driver.newStmt]
  refine ⟨h, ?_⟩
  rw [h]
  decide

theorem Execute_zero_affected_is_notFound_witness :
    (Execute emptyDriver ⟨none, none, 0, none⟩ "DELETE" [Value.int 999]).1
        = Outcome.error ErrNotFound ∧
    errIsNotFound (Execute emptyDriver ⟨none, none, 0, none⟩ "DELETE" [Value.int 999]).1
        = true :=
  Execute_zero_affected_is_notFound emptyDriver ⟨none, none, 0, none⟩ "DELETE"
    [Value.int 999] rfl rfl rfl rfl

/-- Claim C5: a driver error whose message contains "Duplicate entry", returned by
the row scan of `QueryRow` or by the exec of `Execute` after a successful prepare,
makes the operation return an error whose message is exactly `ErrDuplicate`; that
message is neither `ErrNotFound` nor one of the generic execution failures. -/
theorem duplicate_entry_is_ErrDuplicate (d : Driver) (err : DriverError)
    (row : List Value) (n : Int) (cntErr : Option DriverError)
    (query : String) (args : List Value) (out : List Value)
    (hdup : stringsContains err.Error "Duplicate entry" = true) :
    (QueryRow d ⟨none, ⟨row, some err⟩⟩ query args out).1 = Outcome.error ErrDuplicate ∧
    (Execute d ⟨none, some err, n, cntErr⟩ query args).1 = Outcome.error ErrDuplicate ∧
    ErrDuplicate ≠ ErrNotFound ∧
    (∀ e : DriverError,
      Errorf "Error while executing the query or scanning the row" e ≠ ErrDuplicate) ∧
    (∀ e : DriverError, Errorf "error when tying to excute statement" e ≠ ErrDuplicate) := by
  refine ⟨?_, ?_, by decide, ?_, ?_⟩
  · simp [QueryRow, Driver.newStmt, hdup]
  · simp [Execute, Driver.newStmt, hdup]
  · intro e
    exact Errorf_ne_of_take _ _ e 7 (by decide) (by decide)
  · intro e
    exact Errorf_ne_of_take _ _ e 1 (by decide) (by decide)

theorem duplicate_entry_is_ErrDuplicate_witness :
    (QueryRow emptyDriver
        ⟨none, ⟨[], some (DriverError.other "Error 1062: Duplicate entry 'a@b.c' for key 1")⟩⟩
        "INSERT" [Value.str "a@b.c"] [Value.null]).1 = Outcome.error ErrDuplicate ∧
    (Execute emptyDriver
        ⟨none, some (DriverError.other "Error 1062: Duplicate entry 'a@b.c' for key 1"), 0, none⟩
        "INSERT" [Value.str "a@b.c"]).1 = Outcome.error ErrDuplicate ∧
    ErrDuplicate ≠ ErrNotFound ∧
    (∀ e : DriverError,
      Errorf "Error while executing the query or scanning the row" e ≠ ErrDuplicate) ∧
    (∀ e : DriverError, Errorf "error when tying to excute statement" e ≠ ErrDuplicate) :=
  duplicate_entry_is_ErrDuplicate emptyDriver
    (DriverError.other "Error 1062: Duplicate entry 'a@b.c' for key 1") [] 0 none
    "INSERT" [Value.str "a@b.c"] [Value.null] (by decide)

/-! ## Preparation failure -/

/-- Claim C9: when the driver's prepare returns an error `e`, each of `QueryRow`,
`Query` and `Execute` returns the error message `ErrPrepareStatement`, a newline and
`e`'s message; the only driver operation performed is the prepare (no query, scan or
exec), the output slots are unchanged, and the handle tables are unchanged (no
statement handle was opened). -/
theorem prepare_failure (d : Driver) (e : DriverError) (query : String) (args : List Value)
    (s1 : QueryRowScript) (out1 : List Value) (s2 : QueryScript) (out2 : Slice)
    (s3 : ExecuteScript)
    (h1 : s1.prepare = some e) (h2 : s2.prepare = some e) (h3 : s3.prepare = some e) :
    QueryRow d s1 query args out1 =
      (Outcome.error (ErrPrepareStatement ++ "\n" ++ e.Error), out1,
        { stmts := d.stmts, cursors := d.cursors, ops := d.ops ++ [Op.prepare query] }) ∧
    Query d s2 query args out2 =
      (Outcome.error (ErrPrepareStatement ++ "\n" ++ e.Error), out2.elems,
        { stmts := d.stmts, cursors := d.cursors, ops := d.ops ++ [Op.prepare query] }) ∧
    Execute d s3 query args =
      (Outcome.error (ErrPrepareStatement ++ "\n" ++ e.Error),
        { stmts := d.stmts, cursors := d.cursors, ops := d.ops ++ [Op.prepare query] }) := by
  refine ⟨?_, ?_, ?_⟩
  · simp [QueryRow, h1, Errorf, Driver.record]
  · simp [Query, h2, Errorf, Driver.record]
  · simp [Execute, h3, Errorf, Driver.record]

theorem prepare_failure_witness :
    QueryRow emptyDriver ⟨some (DriverError.other "syntax error"), ⟨[], none⟩⟩ "SELEC"
        [] [Value.null] =
      (Outcome.error (ErrPrepareStatement ++ "\n" ++ "syntax error"), [Value.null],
        { stmts := [], cursors := [], ops := [] ++ [Op.prepare "SELEC"] }) ∧
    Query emptyDriver ⟨some (DriverError.other "syntax error"), none, [], none⟩ "SELEC"
        [] ⟨[[Value.null]], 1⟩ =
      (Outcome.error (ErrPrepareStatement ++ "\n" ++ "syntax error"), [[Value.null]],
        { stmts := [], cursors := [], ops := [] ++ [Op.prepare "SELEC"] }) ∧
    Execute emptyDriver ⟨some (DriverError.other "syntax error"), none, 0, none⟩ "SELEC" [] =
      (Outcome.error (ErrPrepareStatement ++ "\n" ++ "syntax error"),
        { stmts := [], cursors := [], ops := [] ++ [Op.prepare "SELEC"] }) :=
  prepare_failure emptyDriver (DriverError.other "syntax error") "SELEC" []
    ⟨some (DriverError.other "syntax error"), ⟨[], none⟩⟩ [Value.null]
    ⟨some (DriverError.other "syntax error"), none, [], none⟩ ⟨[[Value.null]], 1⟩
    ⟨some (DriverError.other "syntax error"), none, 0, none⟩ rfl rfl rfl

/-! ## Resource release -/

theorem close_fresh_handle (table : List Nat) :
    (table ++ [0]).set table.length ((table ++ [0]).getD table.length 0 + 1) = table ++ [1] := by
  induction table with
  | nil => rfl
  | cons a l ih =>
    simp only [List.cons_append, List.length_cons, List.set_cons_succ, List.getD_cons_succ]
    rw [ih]

theorem openHandles_closed (table : List Nat) :
    openHandles (table ++ [1]) = openHandles table := by
  simp [openHandles, List.count_append]

/-- The scan loop creates and closes no handle. -/
theorem scanLoop_handles (cursor : Nat) (rows : List Row) :
    ∀ (index : Nat) (out : List (List Value)) (d : Driver),
      (scanLoop cursor rows index out d).2.2.stmts = d.stmts ∧
      (scanLoop cursor rows index out d).2.2.cursors = d.cursors := by
  induction rows with
  | nil => intro index out d; simp [scanLoop, Driver.record]
  | cons r rest ih =>
    intro index out d
    unfold scanLoop
    by_cases h : index < out.length
    · simp only [h, dite_true]
      cases hr : r.err with
      | some err => simp [Driver.record]
      | none =>
        simp only []
        rw [(ih _ _ _).1, (ih _ _ _).2]
        simp [Driver.record]
    · simp [h, Driver.record]

/-- Claim C6: for every call of `QueryRow`, `Query` or `Execute` and every outcome
(success, each error branch, or a panic in the scan loop or at the reslice), the
statement handle created by a successful prepare has received exactly one `Close`
when the call returns, and in `Query` so has the cursor created by a successful
query; no other handle is touched, and the number of open handles after the call
equals the number before it. -/
theorem handles_released (d : Driver) (query : String) (args : List Value)
    (s1 : QueryRowScript) (out1 : List Value) (s2 : QueryScript) (out2 : Slice)
    (s3 : ExecuteScript) :
    ((QueryRow d s1 query args out1).2.2.stmts
        = (if s1.prepare = none then d.stmts ++ [1] else d.stmts) ∧
      (QueryRow d s1 query args out1).2.2.cursors = d.cursors ∧
      openHandles (QueryRow d s1 query args out1).2.2.stmts = openHandles d.stmts) ∧
    ((Query d s2 query args out2).2.2.stmts
        = (if s2.prepare = none then d.stmts ++ [1] else d.stmts) ∧
      (Query d s2 query args out2).2.2.cursors
        = (if s2.prepare = none ∧ s2.query = none then d.cursors ++ [1] else d.cursors) ∧
      openHandles (Query d s2 query args out2).2.2.stmts = openHandles d.stmts ∧
      openHandles (Query d s2 query args out2).2.2.cursors = openHandles d.cursors) ∧
    ((Execute d s3 query args).2.stmts
        = (if s3.prepare = none then d.stmts ++ [1] else d.stmts) ∧
      (Execute d s3 query args).2.cursors = d.cursors ∧
      openHandles (Execute d s3 query args).2.stmts = openHandles d.stmts) := by
  refine ⟨?_, ?_, ?_⟩
  · cases hp : s1.prepare with
    | some e => simp [QueryRow, hp, Driver.record]
    | none =>
      simp [QueryRow, hp, Driver.record, Driver.newStmt, Driver.closeStmt,
        close_fresh_handle, openHandles_closed]
  · cases hp : s2.prepare with
    | some e => simp [Query, hp, Driver.record]
    | none =>
      cases hq : s2.query with
      | some e =>
        simp [Query, hp, hq, Driver.record, Driver.newStmt, Driver.closeStmt,
          close_fresh_handle, openHandles_closed]
      | none =>
        have hl := scanLoop_handles d.cursors.length s2.rows 0 out2.elems
          { stmts := d.stmts ++ [0], cursors := d.cursors ++ [0],
            ops := d.ops ++ [Op.prepare query] ++ [Op.stmtQuery d.stmts.length args] }
        obtain ⟨hl1, hl2⟩ := hl
        simp only [Query, hp, hq, Driver.newStmt, Driver.newCursor, Driver.closeStmt,
          Driver.closeCursor]
        generalize scanLoop d.cursors.length s2.rows 0 out2.elems _ = res at hl1 hl2 ⊢
        obtain ⟨exit, o, d3⟩ := res
        simp only at hl1 hl2
        have key : ∀ d4 : Driver, d4.stmts = d3.stmts → d4.cursors = d3.cursors →
            (d4.stmts.set d.stmts.length (d4.stmts.getD d.stmts.length 0 + 1)
                = d.stmts ++ [1]) ∧
            (d4.cursors.set d.cursors.length (d4.cursors.getD d.cursors.length 0 + 1)
                = d.cursors ++ [1]) := by
          intro d4 h4 h5
          rw [h4, h5, hl1, hl2]
          exact ⟨close_fresh_handle _, close_fresh_handle _⟩
        obtain ⟨k1, k2⟩ := key d3 rfl rfl
        simp only [List.getD_eq_getElem?_getD] at k1 k2
        cases exit with
        | scanError i e =>
          simp [k1, k2, openHandles_closed]
        | indexOutOfRange i =>
          simp [k1, k2, openHandles_closed]
        | done i =>
          by_cases hc : i + 1 ≤ out2.cap
          · cases he : s2.rowsErr <;>
              simp [hc, he, Driver.record, k1, k2, openHandles_closed]
          · simp [hc, k1, k2, openHandles_closed]
  · cases hp : s3.prepare with
    | some e => simp [Execute, hp, Driver.record]
    | none =>
      cases he : s3.exec with
      | some e =>
        by_cases hd : stringsContains e.Error "Duplicate entry" = true <;>
          simp [Execute, hp, he, hd, Driver.record, Driver.newStmt, Driver.closeStmt,
            close_fresh_handle, openHandles_closed]
      | none =>
        cases ha : s3.rowsAffectedErr with
        | some e =>
          simp [Execute, hp, he, ha, Driver.record, Driver.newStmt, Driver.closeStmt,
            close_fresh_handle, openHandles_closed]
        | none =>
          by_cases hz : s3.rowsAffected = 0 <;>
            simp [Execute, hp, he, ha, hz, Driver.record, Driver.newStmt, Driver.closeStmt,
              close_fresh_handle, openHandles_closed]

/-! ## The scan loop and the caller's capacity -/

/-- When every delivered row scans without error, the loop either consumes all the
rows or stops with an index fault at `index = len(out)`. -/
theorem scanLoop_exit_of_ok (cursor : Nat) (rows : List Row)
    (hok : ∀ r ∈ rows, r.err = none) :
    ∀ (index : Nat) (out : List (List Value)) (d : Driver), index ≤ out.length →
      (scanLoop cursor rows index out d).1 =
        (if index + rows.length ≤ out.length then LoopExit.done (index + rows.length)
         else LoopExit.indexOutOfRange out.length) := by
  induction rows with
  | nil => intro index out d hi; simp [scanLoop, hi]
  | cons r rest ih =>
    intro index out d hi
    have hr : r.err = none := hok r (List.mem_cons_self _ _)
    have hrest : ∀ r ∈ rest, r.err = none := fun x hx => hok x (List.mem_cons_of_mem _ hx)
    unfold scanLoop
    by_cases h : index < out.length
    · simp only [h, dite_true, hr]
      rw [ih hrest (index + 1) _ _ (by simp; omega)]
      simp only [List.length_set, List.length_cons]
      by_cases h2 : index + 1 + rest.length ≤ out.length
      · rw [if_pos h2, if_pos (by omega)]
        congr 1
        omega
      · rw [if_neg h2, if_neg (by omega)]
    · have : index = out.length := by omega
      simp only [h, dite_false, List.length_cons]
      rw [if_neg (by omega)]
      rw [this]

/-- With a slice whose capacity equals its length `N` (as built by `make`), a
cursor delivering at least `N` rows that all scan without error makes `Query`
panic: at `out[N]` when there are more than `N` rows, at `out[:N+1]` when there
are exactly `N`. -/
theorem Query_panics_at_capacity (d : Driver) (s : QueryScript) (query : String)
    (args : List Value) (out : Slice)
    (hprep : s.prepare = none) (hquery : s.query = none)
    (hok : ∀ r ∈ s.rows, r.err = none)
    (hcap : out.cap = out.elems.length) (hrows : out.elems.length ≤ s.rows.length) :
    (Query d s query args out).1 =
      (if out.elems.length < s.rows.length then Outcome.panic "index out of range"
       else Outcome.panic "slice bounds out of range") := by
  have hl := fun d0 => scanLoop_exit_of_ok d.cursors.length s.rows hok 0 out.elems d0
    (Nat.zero_le _)
  simp only [Query, hprep, hquery, Driver.newStmt, Driver.newCursor]
  rw [hl]
  simp only [Nat.zero_add]
  by_cases hlt : out.elems.length < s.rows.length
  · rw [if_neg (by omega)]
    simp [hlt]
  · rw [if_pos (by omega)]
    have : ¬ (s.rows.length + 1 ≤ out.cap) := by omega
    simp [hlt, this]

/-- Claim C1, evaluated on the code: with one slot group of capacity one, a cursor
holding two rows makes `Query` panic at `out[1]` after scanning the first row, and
a cursor holding exactly one row makes it panic at the reslice `out[:2]`; in both
cases the call does not return normally. -/
theorem Query_capacity_fault :
    (Query emptyDriver ⟨none, none, [⟨[Value.int 1], none⟩, ⟨[Value.int 2], none⟩], none⟩
        "SELECT" [] (Slice.ofList [[Value.null]])).1
      = Outcome.panic "index out of range" ∧
    (Query emptyDriver ⟨none, none, [⟨[Value.int 1], none⟩], none⟩
        "SELECT" [] (Slice.ofList [[Value.null]])).1
      = Outcome.panic "slice bounds out of range" := by
  constructor <;> rfl

/-- With a slice of capacity at least one, a cursor yielding no row and no
cursor-level error makes `Query` return `nil`, performing no scan and leaving
the slots unchanged. -/
theorem Query_empty_result_with_spare_capacity (d : Driver) (s : QueryScript)
    (query : String) (args : List Value) (out : Slice)
    (hprep : s.prepare = none) (hquery : s.query = none) (hrows : s.rows = [])
    (herr : s.rowsErr = none) (hcap : 1 ≤ out.cap) :
    (Query d s query args out).1 = Outcome.nil ∧
    (Query d s query args out).2.1 = out.elems ∧
    (Query d s query args out).2.2.ops = d.ops ++
      [Op.prepare query, Op.stmtQuery d.stmts.length args, Op.rowsNext d.cursors.length,
       Op.rowsErr d.cursors.length, Op.rowsClose d.cursors.length,
       Op.stmtClose d.stmts.length] := by
  simp [Query, hprep, hquery, hrows, herr, hcap, scanLoop, Driver.newStmt, Driver.newCursor,
    Driver.record, Driver.closeCursor, Driver.closeStmt]

/-- Claim C2, evaluated on the code: with an empty sequence of slot groups (length
and capacity zero), a cursor yielding no row and no error makes `Query` panic at
the reslice `out[:1]` instead of returning `nil`. -/
theorem Query_empty_result_fault :
    (Query emptyDriver ⟨none, none, [], none⟩ "SELECT" [] ⟨[], 0⟩).1
      = Outcome.panic "slice bounds out of range" := by
  rfl

/-! ## Which failures read as "not found" -/

theorem errIsNotFound_iff (o : Outcome) :
    errIsNotFound o = true ↔ o = Outcome.error ErrNotFound := by
  cases o <;> simp [errIsNotFound]

/-- When the loop returns a scan error it is the first failing row's error; when
the loop runs to its end no row failed. -/
theorem scanLoop_exit_cause (cursor : Nat) (rows : List Row) :
    ∀ (index : Nat) (out : List (List Value)) (d : Driver),
      (∀ i e, (scanLoop cursor rows index out d).1 = LoopExit.scanError i e →
        firstScanError rows = some e) ∧
      (∀ i, (scanLoop cursor rows index out d).1 = LoopExit.done i →
        firstScanError rows = none) := by
  induction rows with
  | nil => intro index out d; simp [scanLoop, firstScanError]
  | cons r rest ih =>
    intro index out d
    unfold scanLoop
    by_cases h : index < out.length
    · simp only [h, dite_true]
      cases hr : r.err with
      | some err => simp [firstScanError, hr]
      | none =>
        simp only [firstScanError, hr]
        exact ih _ _ _
    · simp [h]

/-- Claim C10: the handlers' test `err.Error() == rdbms.ErrNotFound` holds for the
result of `QueryRow` exactly when prepare succeeded and the scan returned
`sql.ErrNoRows` (whose message does not contain "Duplicate entry"), never for a
result of `Query`, and for the result of `Execute` exactly when prepare and exec
succeeded and the affected-row count was retrieved without error and is 0; so a
preparation failure, a duplicate or a generic failure is never read as not-found,
whatever text the driver's errors carry. -/
theorem notFound_only_from_noRows_or_zero_affected (d : Driver) (query : String)
    (args : List Value) (s1 : QueryRowScript) (out1 : List Value) (s2 : QueryScript)
    (out2 : Slice) (s3 : ExecuteScript) :
    (errIsNotFound (QueryRow d s1 query args out1).1 = true ↔
      (s1.prepare = none ∧ s1.row.err = some DriverError.errNoRows ∧
        stringsContains DriverError.errNoRows.Error "Duplicate entry" = false)) ∧
    errIsNotFound (Query d s2 query args out2).1 = false ∧
    (errIsNotFound (Execute d s3 query args).1 = true ↔
      (s3.prepare = none ∧ s3.exec = none ∧ s3.rowsAffectedErr = none ∧
        s3.rowsAffected = 0)) := by
  have hprep : ∀ e, Errorf ErrPrepareStatement e ≠ ErrNotFound :=
    fun e => Errorf_ne_of_take _ _ e 7 (by decide) (by decide)
  refine ⟨?_, ?_, ?_⟩
  · rw [errIsNotFound_iff]
    cases hp : s1.prepare with
    | some e => simp [QueryRow, hp, hprep]
    | none =>
      cases hr : s1.row.err with
      | none => simp [QueryRow, hp, hr, Driver.newStmt]
      | some e =>
        have hnr : stringsContains DriverError.errNoRows.Error "Duplicate entry" = false := by
          decide
        by_cases hd : stringsContains e.Error "Duplicate entry" = true
        · have hne : e ≠ DriverError.errNoRows := by
            intro h
            rw [h, hnr] at hd
            exact Bool.noConfusion hd
          have hdn : ErrDuplicate ≠ ErrNotFound := by decide
          simp [QueryRow, hp, hr, Driver.newStmt, hd, hne, hdn]
        · by_cases he : e = DriverError.errNoRows
          · simp [QueryRow, hp, hr, Driver.newStmt, hd, he, hnr]
          · have hg : Errorf "Error while executing the query or scanning the row" e
                ≠ ErrNotFound := Errorf_ne_of_take _ _ e 7 (by decide) (by decide)
            simp [QueryRow, hp, hr, Driver.newStmt, hd, he, hg]
  · rw [Bool.eq_false_iff, Ne, errIsNotFound_iff]
    cases hp : s2.prepare with
    | some e => simp [Query, hp, hprep]
    | none =>
      cases hq : s2.query with
      | some e =>
        have hg : Errorf "Error executing the query" e ≠ ErrNotFound :=
          Errorf_ne_of_take _ _ e 7 (by decide) (by decide)
        simp [Query, hp, hq, Driver.newStmt, hg]
      | none =>
        simp only [Query, hp, hq, Driver.newStmt, Driver.newCursor]
        generalize scanLoop d.cursors.length s2.rows 0 out2.elems _ = res
        obtain ⟨exit, o, d3⟩ := res
        cases exit with
        | scanError i e =>
          have hg : Errorf "Error while scanning the row" e ≠ ErrNotFound :=
            Errorf_ne_of_take _ _ e 7 (by decide) (by decide)
          simp [hg]
        | indexOutOfRange i => simp
        | done i =>
          by_cases hc : i + 1 ≤ out2.cap
          · cases he : s2.rowsErr with
            | none => simp [hc]
            | some e =>
              have hg : Errorf "There's an error in result of the query" e ≠ ErrNotFound :=
                Errorf_ne_of_take _ _ e 1 (by decide) (by decide)
              simp [hc, hg]
          · simp [hc]
  · rw [errIsNotFound_iff]
    cases hp : s3.prepare with
    | some e => simp [Execute, hp, hprep]
    | none =>
      cases he : s3.exec with
      | some e =>
        by_cases hd : stringsContains e.Error "Duplicate entry" = true
        · have hdn : ErrDuplicate ≠ ErrNotFound := by decide
          simp [Execute, hp, he, Driver.newStmt, hd, hdn]
        · have hg : Errorf "error when tying to excute statement" e ≠ ErrNotFound :=
            Errorf_ne_of_take _ _ e 1 (by decide) (by decide)
          simp [Execute, hp, he, Driver.newStmt, hd, hg]
      | none =>
        cases ha : s3.rowsAffectedErr with
        | some e =>
          have hg : Errorf "error getting number of rows affected" e ≠ ErrNotFound :=
            Errorf_ne_of_take _ _ e 1 (by decide) (by decide)
          simp [Execute, hp, he, ha, Driver.newStmt, hg]
        | none =>
          by_cases hz : s3.rowsAffected = 0 <;>
            simp [Execute, hp, he, ha, hz, Driver.newStmt]

/-! ## What the returned error carries -/

/-- Claim C8 as stated fails: a scan error with the text "Duplicate entry" makes
`QueryRow` return the bare text `ErrDuplicate`, which does not contain the text
of the driver error, and `sql.ErrNoRows` makes it return the bare text
`ErrNotFound`, which does not contain the text of `sql.ErrNoRows`. -/
theorem cause_dropped_for_duplicate_and_notFound :
    (QueryRow emptyDriver ⟨none, ⟨[], some (DriverError.other "Duplicate entry")⟩⟩
        "INSERT" [] []).1 = Outcome.error ErrDuplicate ∧
    stringsContains ErrDuplicate (DriverError.other "Duplicate entry").Error = false ∧
    (QueryRow emptyDriver ⟨none, ⟨[], some DriverError.errNoRows⟩⟩
        "SELECT" [] []).1 = Outcome.error ErrNotFound ∧
    stringsContains ErrNotFound DriverError.errNoRows.Error = false := by
  refine ⟨?_, ?_, ?_, ?_⟩ <;> decide

/-- Claim C8, amended: whenever `QueryRow`, `Query` or `Execute` returns an error
whose message is neither `ErrDuplicate` nor `ErrNotFound`, that message is the
fixed text of the failing stage, a newline and the message of the driver error
that made the call fail (from prepare, query, the first failing scan, the cursor
error check, exec or affected-row retrieval), and so contains that message. -/
theorem cause_preserved_unless_duplicate_or_notFound (d : Driver) (query : String)
    (args : List Value) (s1 : QueryRowScript) (out1 : List Value) (s2 : QueryScript)
    (out2 : Slice) (s3 : ExecuteScript) (m : String)
    (hdup : m ≠ ErrDuplicate) (hnf : m ≠ ErrNotFound) :
    ((QueryRow d s1 query args out1).1 = Outcome.error m →
      ∃ e, stringsContains m e.Error = true ∧
        ((s1.prepare = some e ∧ m = Errorf ErrPrepareStatement e) ∨
         (s1.prepare = none ∧ s1.row.err = some e ∧
           m = Errorf "Error while executing the query or scanning the row" e))) ∧
    ((Query d s2 query args out2).1 = Outcome.error m →
      ∃ e, stringsContains m e.Error = true ∧
        ((s2.prepare = some e ∧ m = Errorf ErrPrepareStatement e) ∨
         (s2.prepare = none ∧ s2.query = some e ∧ m = Errorf "Error executing the query" e) ∨
         (s2.prepare = none ∧ s2.query = none ∧ firstScanError s2.rows = some e ∧
           m = Errorf "Error while scanning the row" e) ∨
         (s2.prepare = none ∧ s2.query = none ∧ firstScanError s2.rows = none ∧
           s2.rowsErr = some e ∧ m = Errorf "There's an error in result of the query" e))) ∧
    ((Execute d s3 query args).1 = Outcome.error m →
      ∃ e, stringsContains m e.Error = true ∧
        ((s3.prepare = some e ∧ m = Errorf ErrPrepareStatement e) ∨
         (s3.prepare = none ∧ s3.exec = some e ∧
           m = Errorf "error when tying to excute statement" e) ∨
         (s3.prepare = none ∧ s3.exec = none ∧ s3.rowsAffectedErr = some e ∧
           m = Errorf "error getting number of rows affected" e))) := by
  refine ⟨?_, ?_, ?_⟩
  · intro h
    cases hp : s1.prepare with
    | some e =>
      simp only [QueryRow, hp, Outcome.error.injEq] at h
      exact ⟨e, by rw [← h]; exact Errorf_contains _ _, Or.inl ⟨rfl, h.symm⟩⟩
    | none =>
      cases hr : s1.row.err with
      | none => simp [QueryRow, hp, hr, Driver.newStmt] at h
      | some e =>
        simp only [QueryRow, hp, hr, Driver.newStmt] at h
        split_ifs at h with h1 h2
        · exact absurd (Outcome.error.inj h).symm hdup
        · exact absurd (Outcome.error.inj h).symm hnf
        · have hm := Outcome.error.inj h
          exact ⟨e, by rw [← hm]; exact Errorf_contains _ _, Or.inr ⟨rfl, rfl, hm.symm⟩⟩
  · intro h
    cases hp : s2.prepare with
    | some e =>
      simp only [Query, hp, Outcome.error.injEq] at h
      exact ⟨e, by rw [← h]; exact Errorf_contains _ _, Or.inl ⟨rfl, h.symm⟩⟩
    | none =>
      cases hq : s2.query with
      | some e =>
        simp only [Query, hp, hq, Driver.newStmt, Outcome.error.injEq] at h
        exact ⟨e, by rw [← h]; exact Errorf_contains _ _, Or.inr (Or.inl ⟨rfl, rfl, h.symm⟩)⟩
      | none =>
        simp only [Query, hp, hq, Driver.newStmt, Driver.newCursor] at h
        have hc := scanLoop_exit_cause d.cursors.length s2.rows 0 out2.elems
          { stmts := d.stmts ++ [0], cursors := d.cursors ++ [0],
            ops := d.ops ++ [Op.prepare query] ++ [Op.stmtQuery d.stmts.length args] }
        generalize scanLoop d.cursors.length s2.rows 0 out2.elems _ = res at h hc
        obtain ⟨exit, o, d3⟩ := res
        obtain ⟨hc1, hc2⟩ := hc
        cases exit with
        | scanError i e =>
          have hm : Errorf "Error while scanning the row" e = m := by simpa using h
          exact ⟨e, by rw [← hm]; exact Errorf_contains _ _,
            Or.inr (Or.inr (Or.inl ⟨rfl, rfl, hc1 i e rfl, hm.symm⟩))⟩
        | indexOutOfRange i => simp at h
        | done i =>
          by_cases hcap : i + 1 ≤ out2.cap
          · cases he : s2.rowsErr with
            | none => simp [hcap, he] at h
            | some e =>
              have hm : Errorf "There's an error in result of the query" e = m := by
                simpa [hcap, he] using h
              exact ⟨e, by rw [← hm]; exact Errorf_contains _ _,
                Or.inr (Or.inr (Or.inr ⟨rfl, rfl, hc2 i rfl, rfl, hm.symm⟩))⟩
          · simp [hcap] at h
  · intro h
    cases hp : s3.prepare with
    | some e =>
      simp only [Execute, hp, Outcome.error.injEq] at h
      exact ⟨e, by rw [← h]; exact Errorf_contains _ _, Or.inl ⟨rfl, h.symm⟩⟩
    | none =>
      cases he : s3.exec with
      | some e =>
        simp only [Execute, hp, he, Driver.newStmt] at h
        split_ifs at h with h1
        · exact absurd (Outcome.error.inj h).symm hdup
        · have hm := Outcome.error.inj h
          exact ⟨e, by rw [← hm]; exact Errorf_contains _ _,
            Or.inr (Or.inl ⟨rfl, rfl, hm.symm⟩)⟩
      | none =>
        cases ha : s3.rowsAffectedErr with
        | some e =>
          have hm : Errorf "error getting number of rows affected" e = m := by
            simpa [Execute, hp, he, ha, Driver.newStmt] using h
          exact ⟨e, by rw [← hm]; exact Errorf_contains _ _,
            Or.inr (Or.inr ⟨rfl, rfl, rfl, hm.symm⟩)⟩
        | none =>
          simp only [Execute, hp, he, ha, Driver.newStmt] at h
          split_ifs at h with hz
          exact absurd (Outcome.error.inj h).symm hnf

theorem cause_preserved_unless_duplicate_or_notFound_witness :
    ∃ e, stringsContains
          "Error while executing the query or scanning the row\nconnection reset" e.Error
          = true ∧
      (((⟨none, ⟨[], some (DriverError.other "connection reset")⟩⟩ : QueryRowScript).prepare
            = some e ∧
          "Error while executing the query or scanning the row\nconnection reset"
            = Errorf ErrPrepareStatement e) ∨
        ((⟨none, ⟨[], some (DriverError.other "connection reset")⟩⟩ : QueryRowScript).prepare
            = none ∧
          (⟨none, ⟨[], some (DriverError.other "connection reset")⟩⟩ : QueryRowScript).row.err
            = some e ∧
          "Error while executing the query or scanning the row\nconnection reset"
            = Errorf "Error while executing the query or scanning the row" e)) :=
  (cause_preserved_unless_duplicate_or_notFound emptyDriver "SELECT" []
    ⟨none, ⟨[], some (DriverError.other "connection reset")⟩⟩ [Value.null]
    ⟨none, none, [], none⟩ ⟨[[Value.null]], 1⟩ ⟨none, none, 1, none⟩
    "Error while executing the query or scanning the row\nconnection reset"
    (by decide) (by decide)).1 (by decide)

/-! ## What a failing `Query` leaves in the caller's slots -/

theorem get_at_length (pre : List (List Value)) (g : List Value) (gs : List (List Value))
    (h : pre.length < (pre ++ g :: gs).length) :
    (pre ++ g :: gs).get ⟨pre.length, h⟩ = g := by
  induction pre with
  | nil => rfl
  | cons a l ih => simpa using ih (by simp)

/-- The slots after the loop: the groups before the starting index are untouched,
the following ones received the rows up to the first failing scan. -/
theorem scanLoop_slots (cursor : Nat) (rows : List Row) :
    ∀ (pre rest : List (List Value)) (d : Driver),
      (scanLoop cursor rows pre.length (pre ++ rest) d).2.1
        = pre ++ afterScans (upToFirstError rows) rest := by
  induction rows with
  | nil => intro pre rest d; simp [scanLoop, upToFirstError, afterScans]
  | cons r rest' ih =>
    intro pre rest d
    unfold scanLoop
    cases rest with
    | nil =>
      have h : ¬ pre.length < (pre ++ ([] : List (List Value))).length := by simp
      simp only [h, dite_false]
      cases hr : r.err <;> simp [upToFirstError, hr, afterScans]
    | cons g gs =>
      have h : pre.length < (pre ++ g :: gs).length := by simp
      have hset : (pre ++ g :: gs).set pre.length
            (scanInto ((pre ++ g :: gs).get ⟨pre.length, h⟩) r.vals)
          = (pre ++ [scanInto g r.vals]) ++ gs := by
        rw [get_at_length]
        simp
      simp only [h, dite_true, hset]
      cases hr : r.err with
      | some err => simp [upToFirstError, hr, afterScans]
      | none =>
        simp only [upToFirstError, hr, afterScans]
        have hlen : pre.length + 1 = (pre ++ [scanInto g r.vals]).length := by simp
        rw [hlen, ih]
        simp

/-- Unless the loop stops on an index fault, every row it scanned had a group. -/
theorem scanLoop_no_fault (cursor : Nat) (rows : List Row) :
    ∀ (pre rest : List (List Value)) (d : Driver),
      (∀ i, (scanLoop cursor rows pre.length (pre ++ rest) d).1
        ≠ LoopExit.indexOutOfRange i) →
      (upToFirstError rows).length ≤ rest.length := by
  induction rows with
  | nil => intro pre rest d _; simp [upToFirstError]
  | cons r rest' ih =>
    intro pre rest d hno
    unfold scanLoop at hno
    cases rest with
    | nil =>
      have h : ¬ pre.length < (pre ++ ([] : List (List Value))).length := by simp
      simp only [h, dite_false] at hno
      exact absurd rfl (hno _)
    | cons g gs =>
      have h : pre.length < (pre ++ g :: gs).length := by simp
      have hset : (pre ++ g :: gs).set pre.length
            (scanInto ((pre ++ g :: gs).get ⟨pre.length, h⟩) r.vals)
          = (pre ++ [scanInto g r.vals]) ++ gs := by
        rw [get_at_length]
        simp
      simp only [h, dite_true, hset] at hno
      cases hr : r.err with
      | some err => simp [upToFirstError, hr]
      | none =>
        simp only [hr] at hno
        have hlen : pre.length + 1 = (pre ++ [scanInto g r.vals]).length := by simp
        rw [hlen] at hno
        have := ih _ _ _ hno
        simp only [upToFirstError, hr, List.length_cons]
        omega

/-- Groups beyond the scanned rows are untouched. -/
theorem afterScans_getElem? (rows : List Row) :
    ∀ (out : List (List Value)) (i : Nat), rows.length ≤ i →
      (afterScans rows out)[i]? = out[i]? := by
  induction rows with
  | nil => intro out i _; simp [afterScans]
  | cons r rs ih =>
    intro out i hi
    cases out with
    | nil => simp [afterScans]
    | cons g gs =>
      cases i with
      | zero => simp at hi
      | succ k =>
        simp only [afterScans, List.getElem?_cons_succ]
        exact ih gs k (by simpa using hi)

/-- Claim C7 as stated fails: with two slot groups and a cursor whose first row
scans and whose second row fails to scan, `Query` returns an error and the
caller's first group holds the first row instead of its previous value. -/
theorem Query_error_exposes_scanned_rows :
    (Query emptyDriver
        ⟨none, none, [⟨[Value.int 1], none⟩, ⟨[], some (DriverError.other "bad value")⟩], none⟩
        "SELECT" [] (Slice.ofList [[Value.null], [Value.null]])).1
      = Outcome.error "Error while scanning the row\nbad value" ∧
    (Query emptyDriver
        ⟨none, none, [⟨[Value.int 1], none⟩, ⟨[], some (DriverError.other "bad value")⟩], none⟩
        "SELECT" [] (Slice.ofList [[Value.null], [Value.null]])).2.1
      = [[Value.int 1], [Value.null]] ∧
    [[Value.int 1], [Value.null]] ≠ (Slice.ofList [[Value.null], [Value.null]]).elems := by
  refine ⟨?_, ?_, ?_⟩ <;> decide

/-- Claim C7, amended: for every call of `Query` that returns an error, a failure
at prepare or at query leaves all the caller's slots as they were; a failure at
the scan of a row or at the cursor error check leaves in the slots exactly the
rows scanned so far (up to and including the failing one, each in its own group,
every one of them within the supplied groups), and every group after those holds
the same values as before the call. -/
theorem Query_error_slots (d : Driver) (s : QueryScript) (query : String)
    (args : List Value) (out : Slice) (m : String)
    (herr : (Query d s query args out).1 = Outcome.error m) :
    ((s.prepare ≠ none ∨ s.query ≠ none) → (Query d s query args out).2.1 = out.elems) ∧
    ((s.prepare = none ∧ s.query = none) →
      (Query d s query args out).2.1 = afterScans (upToFirstError s.rows) out.elems ∧
      (upToFirstError s.rows).length ≤ out.elems.length ∧
      ∀ i, (upToFirstError s.rows).length ≤ i →
        (Query d s query args out).2.1[i]? = out.elems[i]?) := by
  cases hp : s.prepare with
  | some e => simp [Query, hp]
  | none =>
    cases hq : s.query with
    | some e => simp [Query, hp, hq, Driver.newStmt]
    | none =>
      have hs := scanLoop_slots d.cursors.length s.rows [] out.elems
        { stmts := d.stmts ++ [0], cursors := d.cursors ++ [0],
          ops := d.ops ++ [Op.prepare query] ++ [Op.stmtQuery d.stmts.length args] }
      have hn := scanLoop_no_fault d.cursors.length s.rows [] out.elems
        { stmts := d.stmts ++ [0], cursors := d.cursors ++ [0],
          ops := d.ops ++ [Op.prepare query] ++ [Op.stmtQuery d.stmts.length args] }
      simp only [List.length_nil, List.nil_append] at hs hn
      have hout : (Query d s query args out).2.1
          = afterScans (upToFirstError s.rows) out.elems := by
        simp only [Query, hp, hq, Driver.newStmt, Driver.newCursor]
        exact hs
      have hlen : (upToFirstError s.rows).length ≤ out.elems.length := by
        apply hn
        intro i hi
        simp only [Query, hp, hq, Driver.newStmt, Driver.newCursor, hi] at herr
        exact Outcome.noConfusion herr
      refine ⟨by simp, fun _ => ⟨hout, hlen, ?_⟩⟩
      intro i hi
      rw [hout]
      exact afterScans_getElem? _ _ _ hi

theorem Query_error_slots_witness :
    (((⟨none, none, [⟨[Value.int 1], none⟩, ⟨[], some (DriverError.other "bad value")⟩],
          none⟩ : QueryScript).prepare ≠ none ∨
        (⟨none, none, [⟨[Value.int 1], none⟩, ⟨[], some (DriverError.other "bad value")⟩],
          none⟩ : QueryScript).query ≠ none) →
      (Query emptyDriver
        ⟨none, none, [⟨[Value.int 1], none⟩, ⟨[], some (DriverError.other "bad value")⟩], none⟩
        "SELECT" [] (Slice.ofList [[Value.null], [Value.null], [Value.null]])).2.1
        = (Slice.ofList [[Value.null], [Value.null], [Value.null]]).elems) ∧
    (((⟨none, none, [⟨[Value.int 1], none⟩, ⟨[], some (DriverError.other "bad value")⟩],
          none⟩ : QueryScript).prepare = none ∧
        (⟨none, none, [⟨[Value.int 1], none⟩, ⟨[], some (DriverError.other "bad value")⟩],
          none⟩ : QueryScript).query = none) →
      (Query emptyDriver
        ⟨none, none, [⟨[Value.int 1], none⟩, ⟨[], some (DriverError.other "bad value")⟩], none⟩
        "SELECT" [] (Slice.ofList [[Value.null], [Value.null], [Value.null]])).2.1
        = afterScans
            (upToFirstError
              [⟨[Value.int 1], none⟩, ⟨[], some (DriverError.other "bad value")⟩])
            (Slice.ofList [[Value.null], [Value.null], [Value.null]]).elems ∧
      (upToFirstError
          [⟨[Value.int 1], none⟩, ⟨[], some (DriverError.other "bad value")⟩]).length
        ≤ (Slice.ofList [[Value.null], [Value.null], [Value.null]]).elems.length ∧
      ∀ i, (upToFirstError
          [⟨[Value.int 1], none⟩, ⟨[], some (DriverError.other "bad value")⟩]).length ≤ i →
        (Query emptyDriver
          ⟨none, none, [⟨[Value.int 1], none⟩, ⟨[], some (DriverError.other "bad value")⟩],
            none⟩
          "SELECT" [] (Slice.ofList [[Value.null], [Value.null], [Value.null]])).2.1[i]?
          = (Slice.ofList [[Value.null], [Value.null], [Value.null]]).elems[i]?) :=
  Query_error_slots emptyDriver
    ⟨none, none, [⟨[Value.int 1], none⟩, ⟨[], some (DriverError.other "bad value")⟩], none⟩
    "SELECT" [] (Slice.ofList [[Value.null], [Value.null], [Value.null]])
    "Error while scanning the row\nbad value" (by decide)

end PhoneBook
